import Mathlib

/-!
Shallow embedding of the TiKV write-rate flow controller
(src/storage/txn/flow_controller.rs) and proofs about it.

Modelling conventions:
* f64 arithmetic is modelled exactly over the rationals; the machine
  constants (16 KiB, 200 MiB, 0.04, ...) are exact in f64, so the branch
  structure of the source is preserved.  f64 `+INFINITY` is modelled by the
  dedicated constructor `Speed.inf` (only the limiter speed can be
  infinite in the source).
* Casts `as u32` / `as u64` on nonnegative f64 values truncate toward zero
  and saturate at the integer type's maximum; they are modelled by
  `f64_as_u32` / `f64_as_u64`.
* `Instant` timestamps are rationals (seconds); `saturating_elapsed_secs`
  is `max (now - t) 0`.  Engine metric reads and clock reads are inputs of
  the corresponding handler.
* Column families are identified by naturals instead of strings.
* The source's `Smoother<T, CAP>` is generic over `u64` and `f64` samples;
  both instantiations are modelled with rational samples, and `CAP` is an
  explicit argument of `observe`.
-/

attribute [local semireducible] Rat.add Rat.mul Rat.inv Rat.sub Rat.ofScientific

namespace FlowCtl

/-- RATIO_SCALE_FACTOR from the source, as a rational (1e7). -/
def ratioScale : ℚ := 10000000

/-- RATIO_SCALE_FACTOR as the u32 denominator passed to gen_ratio. -/
def ratioScaleNat : ℕ := 10000000

/-- LIMIT_UP_PERCENT = 0.04. -/
def limitUpPercent : ℚ := 4 / 100

/-- LIMIT_DOWN_PERCENT = 0.02. -/
def limitDownPercent : ℚ := 2 / 100

/-- MIN_THROTTLE_SPEED = 16 KiB/s. -/
def minThrottleSpeed : ℚ := 16 * 1024

/-- MAX_THROTTLE_SPEED = 200 MiB/s. -/
def maxThrottleSpeed : ℚ := 200 * 1024 * 1024

/-- EMA_FACTOR = 0.6. -/
def emaFactor : ℚ := 6 / 10

/-- PID_KP_FACTOR = 0.15. -/
def pidKpFactor : ℚ := 15 / 100

/-- PID_KD_FACTOR = 5.0. -/
def pidKdFactor : ℚ := 5

/-- SMOOTHER_STALE_RECORD_THRESHOLD = 300 s. -/
def staleThreshold : ℚ := 300

/-- SPARE_TICKS_THRESHOLD = 10. -/
def spareTicksThreshold : ℕ := 10

/-- Instant::saturating_elapsed_secs at time `now` for a record taken at `t`. -/
def saturating_elapsed_secs (t now : ℚ) : ℚ := max (now - t) 0

/-- Rust `as u32` on a f64: truncate toward zero, saturating at 0 and u32::MAX. -/
def f64_as_u32 (q : ℚ) : ℕ := min (Int.toNat ⌊q⌋) 4294967295

/-- Rust `as u64` on a f64: truncate toward zero, saturating at 0 and u64::MAX. -/
def f64_as_u64 (q : ℚ) : ℕ := min (Int.toNat ⌊q⌋) 18446744073709551615

/-- The three-valued trend of a Smoother window (source enum Trend). -/
inductive Trend where
  | Increasing
  | Decreasing
  | NoTrend
  deriving DecidableEq, Repr

/-- A f64 speed value that is either finite or +INFINITY. -/
inductive Speed where
  | inf
  | fin (v : ℚ)
  deriving DecidableEq, Repr

/-- f64 addition of a finite addend to a speed (inf + x = inf). -/
def Speed.addQ : Speed → ℚ → Speed
  | Speed.inf, _ => Speed.inf
  | Speed.fin v, q => Speed.fin (v + q)

/-- f64 multiplication of a speed by a positive finite factor (inf * k = inf). -/
def Speed.mulQ : Speed → ℚ → Speed
  | Speed.inf, _ => Speed.inf
  | Speed.fin v, q => Speed.fin (v * q)

/-- Whether speed * k < q holds in f64 (false when the speed is infinite). -/
def Speed.scaledLtB : Speed → ℚ → ℚ → Bool
  | Speed.inf, _, _ => false
  | Speed.fin v, k, q => decide (v * k < q)

/-- Whether a speed is at most the finite bound q (inf is not). -/
def Speed.leQB : Speed → ℚ → Bool
  | Speed.inf, _ => false
  | Speed.fin v, q => decide (v ≤ q)

/-- Order on speeds with inf on top. -/
def Speed.le : Speed → Speed → Prop
  | _, Speed.inf => True
  | Speed.inf, Speed.fin _ => False
  | Speed.fin a, Speed.fin b => a ≤ b

instance Speed.decLe : ∀ a b : Speed, Decidable (Speed.le a b)
  | Speed.inf, Speed.inf => isTrue trivial
  | Speed.fin _, Speed.inf => isTrue trivial
  | Speed.inf, Speed.fin _ => isFalse (fun h => h)
  | Speed.fin a, Speed.fin b => inferInstanceAs (Decidable (a ≤ b))

/-- Smoother: the sliding window of (sample, observation time) pairs and the
running total (source struct Smoother<T, CAP>; the capacity is passed to
`observe`). The list front is the oldest record. -/
structure Smoother where
  records : List (ℚ × ℚ)
  total : ℚ
  deriving DecidableEq, Repr

/-- The default (empty) smoother. -/
def Smoother.empty : Smoother := { records := [], total := 0 }

/-- Source Smoother::remove_stale_records: pop stale records from the front
while more than two records remain. -/
def Smoother.remove_stale_records (now : ℚ) : List (ℚ × ℚ) → ℚ → List (ℚ × ℚ) × ℚ
  | [], total => ([], total)
  | a :: rest, total =>
    if 2 < (a :: rest).length ∧ staleThreshold < saturating_elapsed_secs a.2 now then
      Smoother.remove_stale_records now rest (total - a.1)
    else (a :: rest, total)

/-- Source Smoother::observe: evict the oldest when full, append the new
record, then sweep stale records.  (With cap = 0 the source would panic on
`pop_front().unwrap()`; all source instantiations use positive capacity and
the theorems below assume it.) -/
def Smoother.observe (s : Smoother) (cap : ℕ) (record now : ℚ) : Smoother :=
  let popped : List (ℚ × ℚ) × ℚ :=
    if s.records.length = cap then
      match s.records with
      | [] => ([], s.total)
      | v :: rest => (rest, s.total - v.1)
    else (s.records, s.total)
  let total := popped.2 + record
  let records := popped.1 ++ [(record, now)]
  let swept := Smoother.remove_stale_records now records total
  { records := swept.1, total := swept.2 }

/-- Source Smoother::get_recent: the last sample, or zero if empty. -/
def Smoother.get_recent (s : Smoother) : ℚ :=
  match s.records.getLast? with
  | none => 0
  | some r => r.1

/-- Source Smoother::get_avg: total / len, or zero if empty. -/
def Smoother.get_avg (s : Smoother) : ℚ :=
  if s.records = [] then 0 else s.total / s.records.length

/-- Source Smoother::get_max: maximum sample, or zero if empty. -/
def Smoother.get_max (s : Smoother) : ℚ :=
  match s.records with
  | [] => 0
  | r :: rest => rest.foldl (fun m p => if m < p.1 then p.1 else m) r.1

/-- Source Smoother::get_percentile_90: sort a copy of the samples
ascending and return the element at index `(len - 1) * 0.90` truncated,
or zero if empty. -/
def Smoother.get_percentile_90 (s : Smoother) : ℚ :=
  if s.records = [] then 0
  else
    let v := List.insertionSort (fun a b => a ≤ b) (s.records.map Prod.fst)
    v.getD (Int.toNat ⌊((s.records.length : ℚ) - 1) * (9 / 10)⌋) 0

/-- The left/right accumulation loop shared by Smoother::slope and
Smoother::trend: element at index i goes left when `i < half` and right
when `n - i - 1 < half` (n is the window length). -/
def Smoother.sumLR (n half : ℕ) : List ℚ → ℕ → ℚ × ℚ
  | [], _ => (0, 0)
  | x :: rest, i =>
    let p := Smoother.sumLR n half rest (i + 1)
    if i < half then (x + p.1, p.2)
    else if n - i - 1 < half then (p.1, x + p.2)
    else p

/-- Source Smoother::slope.  (For the u64 instantiation the source computes
`right - left` in u64, which would wrap when decreasing; the rational model
computes the exact difference.  A zero time span gives f64 infinities in
the source; rational division by zero gives 0.  No claim below depends on
either corner.) -/
def Smoother.slope (s : Smoother) : ℚ :=
  if s.records.length ≤ 1 then 0
  else
    let half := s.records.length / 2
    let lr := Smoother.sumLR s.records.length half (s.records.map Prod.fst) 0
    let elapsed :=
      match s.records.getLast?, s.records.head? with
      | some b, some f => b.2 - f.2
      | _, _ => 0
    (lr.2 - lr.1) / (half : ℚ) / (elapsed / 2)

/-- Source Smoother::trend: NoTrend for windows of length at most one,
otherwise compare the two half sums with a tolerance of 2. -/
def Smoother.trend (s : Smoother) : Trend :=
  if s.records.length ≤ 1 then Trend.NoTrend
  else
    let half := s.records.length / 2
    let lr := Smoother.sumLR s.records.length half (s.records.map Prod.fst) 0
    if lr.1 + 2 < lr.2 then Trend.Increasing
    else if lr.2 + 2 < lr.1 then Trend.Decreasing
    else Trend.NoTrend

/-- Source struct CFFlowChecker: per-CF statistics.  Scalar u64 counters are
naturals, f64 scalars and timestamps are rationals. -/
structure CFFlowChecker where
  last_num_memtables : Smoother
  memtable_debt : ℚ
  init_speed : Bool
  last_num_l0_files : ℕ
  last_num_l0_files_from_flush : ℕ
  long_term_num_l0_files : Smoother
  last_flush_bytes_time : ℚ
  last_flush_bytes : ℕ
  short_term_l0_production_flow : Smoother
  long_term_l0_production_flow : Smoother
  last_l0_bytes : ℕ
  last_l0_bytes_time : ℚ
  short_term_l0_consumption_flow : Smoother
  long_term_pending_bytes : Smoother
  on_start_memtable : Bool
  on_start_l0_files : Bool
  on_start_pending_bytes : Bool
  deriving DecidableEq, Repr

/-- Default CFFlowChecker (source impl Default), with the creation instant
passed in for the two time fields. -/
def CFFlowChecker.default (now : ℚ) : CFFlowChecker where
  last_num_memtables := Smoother.empty
  memtable_debt := 0
  init_speed := false
  last_num_l0_files := 0
  last_num_l0_files_from_flush := 0
  long_term_num_l0_files := Smoother.empty
  last_flush_bytes_time := now
  last_flush_bytes := 0
  short_term_l0_production_flow := Smoother.empty
  long_term_l0_production_flow := Smoother.empty
  last_l0_bytes := 0
  last_l0_bytes_time := now
  short_term_l0_consumption_flow := Smoother.empty
  long_term_pending_bytes := Smoother.empty
  on_start_memtable := true
  on_start_l0_files := true
  on_start_pending_bytes := true

/-- Source struct FlowChecker.  The soft/hard pending-compaction limits are
carried directly as their base-2 logarithms (the source only ever uses
`(limit as f64).log2()`); the limiter is inlined as the `speed` field and
the discard-ratio atomic as the `discard_ratio` field (a u32 value). -/
structure FlowChecker where
  soft_log2 : ℚ
  hard_log2 : ℚ
  memtables_threshold : ℕ
  l0_files_threshold : ℕ
  cf_checkers : List (ℕ × CFFlowChecker)
  throttle_cf : Option ℕ
  l0_target_flow : ℚ
  num_l0_for_last_update_target_flow : Option ℕ
  discard_ratio : ℕ
  speed : Speed
  write_flow_recorder : Smoother
  last_record_time : ℚ
  deriving DecidableEq, Repr

/-- Lookup of a CF's checker (the source indexes the map and unwraps; all
traces below only use registered CFs). -/
def getCf (s : FlowChecker) (cf : ℕ) : CFFlowChecker :=
  (s.cf_checkers.lookup cf).getD (CFFlowChecker.default 0)

/-- Store back a CF's checker. -/
def setCf (s : FlowChecker) (cf : ℕ) (ck : CFFlowChecker) : FlowChecker :=
  { s with cf_checkers := s.cf_checkers.map (fun p => if p.1 = cf then (cf, ck) else p) }

/-- Source FlowChecker::new for a list of CF names. -/
def FlowChecker.new (softLog2 hardLog2 : ℚ) (memtablesThreshold l0FilesThreshold : ℕ)
    (cfs : List ℕ) (now : ℚ) : FlowChecker where
  soft_log2 := softLog2
  hard_log2 := hardLog2
  memtables_threshold := memtablesThreshold
  l0_files_threshold := l0FilesThreshold
  cf_checkers := cfs.map (fun c => (c, CFFlowChecker.default now))
  throttle_cf := none
  l0_target_flow := 0
  num_l0_for_last_update_target_flow := none
  discard_ratio := 0
  speed := Speed.inf
  write_flow_recorder := Smoother.empty
  last_record_time := now

/-- Source FlowChecker::update_speed_limit: clamp the proposed throttle up
to MIN_THROTTLE_SPEED; if the clamped value is above MAX_THROTTLE_SPEED
(the proposed f64 +INFINITY always is) release throttling: clear the
throttle CF and the target-flow anchor and install +INFINITY; otherwise
install the clamped value on the limiter. -/
def update_speed_limit (throttle : Speed) (s : FlowChecker) : FlowChecker :=
  match throttle with
  | Speed.inf =>
    { s with throttle_cf := none, num_l0_for_last_update_target_flow := none,
             speed := Speed.inf }
  | Speed.fin v0 =>
    let v := if v0 < minThrottleSpeed then minThrottleSpeed else v0
    if maxThrottleSpeed < v then
      { s with throttle_cf := none, num_l0_for_last_update_target_flow := none,
               speed := Speed.inf }
    else { s with speed := Speed.fin v }

/-- Apply a pending throttle decision: `none` models a source early return
(no call to update_speed_limit), `some t` the fall-through call. -/
def finish_throttle : FlowChecker × Option Speed → FlowChecker
  | (s, none) => s
  | (s, some t) => update_speed_limit t s

/-- Source FlowChecker::reset_statistics: beyond metrics gauges it only sets
the limiter speed to +INFINITY and stores 0 into the discard-ratio atomic.
In particular the write-flow recorder is left as is. -/
def reset_statistics (s : FlowChecker) : FlowChecker :=
  { s with speed := Speed.inf, discard_ratio := 0 }

/-- Source FlowChecker::update_statistics: compute the foreground write rate
from the limiter's consumed-byte counter and record it (only when nonzero),
then reset the record time.  `consumed` is the limiter reading. -/
def update_statistics (consumed : ℕ) (now : ℚ) (s : FlowChecker) : FlowChecker :=
  let rate : ℚ := (consumed : ℚ) / saturating_elapsed_secs s.last_record_time now
  let s1 :=
    if consumed ≠ 0 then
      { s with write_flow_recorder :=
          s.write_flow_recorder.observe 30 ((f64_as_u64 rate : ℕ) : ℚ) now }
    else s
  { s1 with last_record_time := now }

/-- Final step of FlowChecker::on_pending_compaction_bytes_change: compute
the new discard ratio from the CF's long-term average of log2(pending
bytes) and store it.  Below the soft limit the ratio is 0; otherwise the
raw ratio (avg - soft) / (hard - soft) is EMA-smoothed with the previous
ratio when that was nonzero, entered gently at 0.01 when it was zero, and
the result times RATIO_SCALE_FACTOR is stored with a `as u32` cast. -/
def pending_store (cf : ℕ) (s2 : FlowChecker) : FlowChecker :=
  let soft := s2.soft_log2
  let hard := s2.hard_log2
  let pending := (getCf s2 cf).long_term_pending_bytes.get_avg
  let ratio : ℕ :=
    if pending < soft then 0
    else
      let new_ratio := (pending - soft) / (hard - soft)
      let old_ratio := s2.discard_ratio
      f64_as_u32
        ((if old_ratio ≠ 0 then
            emaFactor * ((old_ratio : ℚ) / ratioScale) + (1 - emaFactor) * new_ratio
          else if 1 / 100 < new_ratio then 1 / 100
          else new_ratio) * ratioScale)
  { s2 with discard_ratio := ratio }

/-- Source FlowChecker::on_pending_compaction_bytes_change.  `num` is the
base-2 logarithm of the engine-reported pending compaction bytes for `cf`
(the source computes `(pending as f64).log2()`), `now` the clock reading.
Observe the sample, apply the start-up gate, return early when any CF holds
a more recent larger sample, else store the new discard ratio. -/
def on_pending_compaction_bytes_change (cf : ℕ) (num now : ℚ) (s : FlowChecker) : FlowChecker :=
  let ck0 := getCf s cf
  let ck1 := { ck0 with long_term_pending_bytes := ck0.long_term_pending_bytes.observe 60 num now }
  let s1 := setCf s cf ck1
  let gate : Option FlowChecker :=
    if ck1.on_start_pending_bytes then
      if num < s.soft_log2 ∨ ck1.long_term_pending_bytes.trend = Trend.Increasing then
        some (setCf s1 cf { ck1 with on_start_pending_bytes := false })
      else none
    else some s1
  match gate with
  | none => s1
  | some s2 =>
    if s2.cf_checkers.any (fun p => decide (num < p.2.long_term_pending_bytes.get_recent)) then
      s2
    else pending_store cf s2

/-- Source FlowChecker::on_memtable_decrs up to (but not including) the
final update_speed_limit call; the second component is the proposed
throttle, `none` when the source returns early.  `num_memtables` is the
engine-reported immutable-memtable count. -/
def on_memtable_decrs_core (cf num_memtables : ℕ) (now : ℚ) (s : FlowChecker) :
    FlowChecker × Option Speed :=
  let ck0 := getCf s cf
  let prev := ck0.last_num_memtables.get_recent
  let ck1 := { ck0 with last_num_memtables := ck0.last_num_memtables.observe 20 (num_memtables : ℚ) now }
  let s1 := setCf s cf ck1
  let gate : Option FlowChecker :=
    if ck1.on_start_memtable then
      if num_memtables < s1.memtables_threshold
          ∨ ck1.last_num_memtables.trend = Trend.Increasing then
        some (setCf s1 cf { ck1 with on_start_memtable := false })
      else none
    else some s1
  match gate with
  | none => (s1, none)
  | some s2 =>
    if s2.cf_checkers.any (fun p => decide ((num_memtables : ℚ) < p.2.last_num_memtables.get_recent)) then
      (s2, none)
    else
      let ck := getCf s2 cf
      if s2.speed = Speed.inf then
        if (s2.memtables_threshold : ℚ) < ck.last_num_memtables.get_avg then
          let s3 := setCf s2 cf { ck with init_speed := true }
          let x := s2.write_flow_recorder.get_percentile_90
          (s3, some (if x = 0 then Speed.inf else Speed.fin x))
        else (s2, some Speed.inf)
      else
        if ¬ ((s2.memtables_threshold : ℚ) < ck.last_num_memtables.get_avg)
            ∨ ck.last_num_memtables.get_recent < (s2.memtables_threshold : ℚ) then
          let ck2 := { ck with memtable_debt := 0 }
          let s3 := setCf s2 cf ck2
          (s3, some (if ck2.init_speed then Speed.inf
                     else s2.speed.addQ (ck2.memtable_debt * (1024 * 1024))))
        else
          let recent := ck.last_num_memtables.get_recent
          if prev < recent then
            (setCf s2 cf { ck with memtable_debt := ck.memtable_debt + 1 },
             some (s2.speed.addQ (-1 * (1024 * 1024))))
          else if recent < prev then
            (setCf s2 cf { ck with memtable_debt := ck.memtable_debt - 1 },
             some (s2.speed.addQ (1 * (1024 * 1024))))
          else (s2, some (s2.speed.addQ (0 * (1024 * 1024))))

/-- Source FlowChecker::on_memtable_decrs. -/
def on_memtable_decrs (cf num_memtables : ℕ) (now : ℚ) (s : FlowChecker) : FlowChecker :=
  finish_throttle (on_memtable_decrs_core cf num_memtables now s)

/-- Observation prefix of FlowChecker::on_l0_decr: accumulate the compacted
L0 bytes, record the post-compaction L0 file count in the long-term
smoother, and update last_num_l0_files.  `num_l0` is the engine-reported
L0 file count. -/
def on_l0_decr_observe (cf l0_bytes num_l0 : ℕ) (now : ℚ) (s : FlowChecker) : FlowChecker :=
  let ck0 := getCf s cf
  setCf s cf
    { ck0 with
      last_l0_bytes := ck0.last_l0_bytes + l0_bytes,
      long_term_num_l0_files := ck0.long_term_num_l0_files.observe 20 (num_l0 : ℚ) now,
      last_num_l0_files := num_l0 }

/-- The on_start_l0_files start-up gate, the block the source duplicates in
FlowChecker::on_l0_decr and FlowChecker::on_l0_incr: while the latch holds,
proceed (clearing the latch) only when the L0 count is below the threshold
or the long-term L0 trend is Increasing; `none` models the early return. -/
def l0_files_start_gate (cf num_l0 : ℕ) (s1 : FlowChecker) : Option FlowChecker :=
  let ck := getCf s1 cf
  if ck.on_start_l0_files then
    if num_l0 < s1.l0_files_threshold ∨ ck.long_term_num_l0_files.trend = Trend.Increasing then
      some (setCf s1 cf { ck with on_start_l0_files := false })
    else none
  else some s1

/-- Throttle-CF arbitration of FlowChecker::on_l0_decr: when another CF is
authoritative, take over only when this CF's L0 count exceeds the maximum
long-term L0 count of the authoritative CF by more than 4; on takeover the
target flow is seeded from this CF's short-term production average.
`none` models the source's early return. -/
def on_l0_decr_arb (cf num_l0 : ℕ) (s2 : FlowChecker) : Option FlowChecker :=
  match s2.throttle_cf with
  | none => some s2
  | some tcf =>
    if tcf = cf then some s2
    else if (getCf s2 tcf).long_term_num_l0_files.get_max + 4 < (num_l0 : ℚ) then
      some { s2 with
        throttle_cf := some cf,
        num_l0_for_last_update_target_flow := some num_l0,
        l0_target_flow := (getCf s2 cf).short_term_l0_production_flow.get_avg }
    else none

/-- Speed decision of FlowChecker::on_l0_decr (the four-way case split on
is_throttled / should_throttle), without the final update_speed_limit. -/
def on_l0_decr_core (cf : ℕ) (s3 : FlowChecker) : FlowChecker × Option Speed :=
  let ck := getCf s3 cf
  if s3.speed = Speed.inf then
    if s3.l0_files_threshold < ck.last_num_l0_files then
      let s4 := { s3 with
        throttle_cf := some cf,
        num_l0_for_last_update_target_flow := some ck.last_num_l0_files,
        l0_target_flow := ck.short_term_l0_production_flow.get_avg }
      let x := s3.write_flow_recorder.get_percentile_90
      (s4, some (if x = 0 then Speed.inf else Speed.fin x))
    else (s3, some Speed.inf)
  else
    if s3.l0_files_threshold < ck.last_num_l0_files then
      let s4 :=
        match s3.num_l0_for_last_update_target_flow with
        | some n =>
          if n + 3 < ck.last_num_l0_files
              ∧ ck.short_term_l0_consumption_flow.get_avg < s3.l0_target_flow then
            { s3 with
              l0_target_flow := ck.short_term_l0_consumption_flow.get_avg,
              num_l0_for_last_update_target_flow := some ck.last_num_l0_files }
          else s3
        | none =>
          { s3 with
            num_l0_for_last_update_target_flow := some ck.last_num_l0_files,
            l0_target_flow := ck.short_term_l0_production_flow.get_avg }
      (s4, some s3.speed)
    else
      if (s3.l0_files_threshold : ℚ) * (1 / 2) ≤ ck.long_term_num_l0_files.get_avg
          ∨ s3.l0_files_threshold ≤ ck.last_num_l0_files_from_flush then
        (s3, some s3.speed)
      else
        let s4 :=
          if s3.num_l0_for_last_update_target_flow.isSome
              ∧ s3.l0_target_flow < ck.short_term_l0_consumption_flow.get_avg then
            let newFlow := (1 / 2) * ck.short_term_l0_consumption_flow.get_avg
              + (1 / 2) * s3.l0_target_flow
            if s3.l0_target_flow < newFlow then { s3 with l0_target_flow := newFlow } else s3
          else s3
        (s4, some (s3.speed.mulQ (1 + limitUpPercent)))

/-- Source FlowChecker::on_l0_decr, as the composition of the observation
prefix, the start-up gate, the throttle-CF arbitration and the speed
decision. -/
def on_l0_decr (cf l0_bytes num_l0 : ℕ) (now : ℚ) (s : FlowChecker) : FlowChecker :=
  let s1 := on_l0_decr_observe cf l0_bytes num_l0 now s
  match l0_files_start_gate cf num_l0 s1 with
  | none => s1
  | some s2 =>
    match on_l0_decr_arb cf num_l0 s2 with
    | none => s2
    | some s3 => finish_throttle (on_l0_decr_core cf s3)

/-- Source FlowChecker::increase_speed_limit, inner PID computation for a
finite current speed `v`: the correction u is clamped to [0, v] (the source
clamps to the speed first, then to 0) and added to v. -/
def increase_proposed (cf : ℕ) (s : FlowChecker) (v : ℚ) : ℚ :=
  let ck := getCf s cf
  let u0 := pidKpFactor * (s.l0_target_flow - ck.short_term_l0_production_flow.get_avg
      + pidKdFactor * (-ck.short_term_l0_production_flow.slope))
  let u := if v < u0 then v else if u0 < 0 then 0 else u0
  v + u

/-- Source FlowChecker::increase_speed_limit. -/
def increase_speed_limit (cf : ℕ) (s : FlowChecker) : FlowChecker :=
  match s.speed with
  | Speed.inf =>
    let s1 := { s with throttle_cf := some cf }
    let x := s1.write_flow_recorder.get_percentile_90
    update_speed_limit (if x = 0 then Speed.inf else Speed.fin x) s1
  | Speed.fin v => update_speed_limit (Speed.fin (increase_proposed cf s v)) s

/-- Source FlowChecker::decrease_speed_limit. -/
def decrease_speed_limit (cf : ℕ) (s : FlowChecker) : FlowChecker :=
  match s.speed with
  | Speed.inf =>
    let s1 := { s with throttle_cf := some cf }
    let x := s1.write_flow_recorder.get_percentile_90
    update_speed_limit (if x = 0 then Speed.inf else Speed.fin x) s1
  | Speed.fin v => update_speed_limit (Speed.fin (v * (1 - limitDownPercent))) s

/-- Target-flow comparison tail of FlowChecker::on_l0_incr (runs only when
a target flow is set and this CF is authoritative). -/
def on_l0_incr_adjust (cf : ℕ) (s3 : FlowChecker) : FlowChecker :=
  match s3.num_l0_for_last_update_target_flow with
  | some _ =>
    let ck := getCf s3 cf
    if s3.l0_target_flow < ck.long_term_l0_production_flow.get_avg
        ∧ s3.l0_target_flow < ck.short_term_l0_production_flow.get_recent then
      decrease_speed_limit cf s3
    else if (ck.short_term_l0_production_flow.get_avg < s3.l0_target_flow
          ∨ ck.short_term_l0_production_flow.get_recent < s3.l0_target_flow)
        ∧ s3.speed.scaledLtB (95 / 100) s3.write_flow_recorder.get_recent = true then
      increase_speed_limit cf s3
    else s3
  | none => s3

/-- Flow-statistics phase of FlowChecker::on_l0_incr, entered when more
than 5 seconds have passed since last_flush_bytes_time: record the flush
(production) flow, the L0-compaction (consumption) flow when any L0 bytes
were drained, and reset the byte accumulators. -/
def on_l0_incr_flows (cf : ℕ) (now : ℚ) (s1 : FlowChecker) : FlowChecker :=
  let ck1 := getCf s1 cf
  let flush_flow := (ck1.last_flush_bytes : ℚ)
    / saturating_elapsed_secs ck1.last_flush_bytes_time now
  let ck2 := { ck1 with
    short_term_l0_production_flow :=
      ck1.short_term_l0_production_flow.observe 10 ((f64_as_u64 flush_flow : ℕ) : ℚ) now,
    long_term_l0_production_flow :=
      ck1.long_term_l0_production_flow.observe 60 ((f64_as_u64 flush_flow : ℕ) : ℚ) now }
  let ck3 :=
    if ck2.last_l0_bytes ≠ 0 then
      let l0_flow := (ck2.last_l0_bytes : ℚ)
        / saturating_elapsed_secs ck2.last_l0_bytes_time now
      { ck2 with
        last_l0_bytes_time := now,
        short_term_l0_consumption_flow :=
          ck2.short_term_l0_consumption_flow.observe 3 ((f64_as_u64 l0_flow : ℕ) : ℚ) now }
    else ck2
  let ck4 := { ck3 with last_flush_bytes_time := now, last_l0_bytes := 0, last_flush_bytes := 0 }
  setCf s1 cf ck4

/-- Source FlowChecker::on_l0_incr.  `num_l0` is the engine-reported L0
file count after the flush, `flush_bytes` the flushed bytes.  Throttling
decisions run only once the flush accumulator covers more than 5 seconds;
they apply the start-up gate, defer to the throttle CF, and compare the
production flows with the target flow. -/
def on_l0_incr (cf flush_bytes num_l0 : ℕ) (now : ℚ) (s : FlowChecker) : FlowChecker :=
  let ck0 := getCf s cf
  let ck1 := { ck0 with
    last_flush_bytes := ck0.last_flush_bytes + flush_bytes,
    last_num_l0_files := num_l0,
    last_num_l0_files_from_flush := num_l0 }
  let s1 := setCf s cf ck1
  if 5 < saturating_elapsed_secs ck1.last_flush_bytes_time now then
    let s2 := on_l0_incr_flows cf now s1
    match l0_files_start_gate cf num_l0 s2 with
    | none => s2
    | some s3 =>
      match s3.throttle_cf with
      | some tcf => if tcf = cf then on_l0_incr_adjust cf s3 else s3
      | none => on_l0_incr_adjust cf s3
  else s1

/-- Source FlowChecker::tick_l0, run after 10 consecutive idle timeouts
while throttled.  The source unwraps the throttle CF; `none` models that
panic (throttled with no throttle CF). -/
def tick_l0 (s : FlowChecker) : Option FlowChecker :=
  if s.speed = Speed.inf then some s
  else
    match s.throttle_cf with
    | none => none
    | some cf =>
      let ck := getCf s cf
      if ck.last_num_l0_files ≤ s.l0_files_threshold then
        let throttle :=
          if (s.l0_files_threshold : ℚ) * (1 / 2) ≤ ck.long_term_num_l0_files.get_avg
              ∨ (s.l0_files_threshold : ℚ) * (1 / 2) ≤ ck.long_term_num_l0_files.get_recent
              ∨ s.l0_files_threshold ≤ ck.last_num_l0_files_from_flush then
            s.speed
          else s.speed.mulQ (1 + 5 * limitUpPercent)
        some (update_speed_limit throttle s)
      else some s

/-- Model of the rand crate operation behind FlowController::should_drop:
Rng::gen_ratio builds Bernoulli::from_ratio(numerator, denominator) and
unwraps it; from_ratio fails whenever numerator > denominator, so the
unwrap panics then (modelled as `none`).  A successful call compares an
ideal uniform draw from [0, denominator) with the numerator. -/
def gen_ratio (numerator denominator draw : ℕ) : Option Bool :=
  if denominator < numerator then none
  else some (decide (draw % denominator < numerator))

/-- Source FlowController::should_drop for a loaded discard-ratio value
`ratio` and a fresh uniform draw. -/
def should_drop (ratio draw : ℕ) : Option Bool :=
  gen_ratio ratio ratioScaleNat draw

/-- State of the worker loop spawned by FlowChecker::start: the checker,
the spare-tick counter and the enabled flag. -/
structure LoopState where
  checker : FlowChecker
  spare_ticks : ℕ
  enabled : Bool
  deriving DecidableEq, Repr

/-- One stimulus of the worker loop: an engine FlowInfo event (carrying the
engine metric and clock readings the handler would fetch), a deadline
timeout (carrying the limiter's consumed-byte reading), or an
Enable/Disable command. -/
inductive Event where
  | l0 (cf l0_bytes num_l0 : ℕ) (now : ℚ)
  | l0Intra (cf diff_bytes num_l0 : ℕ) (now : ℚ)
  | flush (cf flush_bytes num_memtables num_l0 : ℕ) (now : ℚ)
  | compaction (cf : ℕ) (pendingLog2 now : ℚ)
  | timeout (consumed : ℕ) (now : ℚ)
  | disable
  | enable
  deriving DecidableEq, Repr

/-- Reset spare_ticks when the event's CF is the current throttle CF. -/
def resetSpare (ls : LoopState) (cf : ℕ) : LoopState :=
  if ls.checker.throttle_cf = some cf then { ls with spare_ticks := 0 } else ls

/-- One iteration of the worker loop of FlowChecker::start.  `none` models
a panic of the worker thread (the tick_l0 unwrap). -/
def step (ls : LoopState) (e : Event) : Option LoopState :=
  match e with
  | Event.disable => some { ls with enabled := false, checker := reset_statistics ls.checker }
  | Event.enable => some { ls with enabled := true }
  | _ =>
    if ls.enabled = false then some ls
    else
      match e with
      | Event.l0 cf b n now =>
        let ls1 := resetSpare ls cf
        some { ls1 with checker := on_l0_decr cf b n now ls1.checker }
      | Event.l0Intra cf d n now =>
        let ls1 := resetSpare ls cf
        if 0 < d then some { ls1 with checker := on_l0_decr cf d n now ls1.checker }
        else some ls1
      | Event.flush cf fb nm nl now =>
        let ls1 := resetSpare ls cf
        some { ls1 with
          checker := on_l0_incr cf fb nl now (on_memtable_decrs cf nm now ls1.checker) }
      | Event.compaction cf p now =>
        let ls1 := resetSpare ls cf
        some { ls1 with checker := on_pending_compaction_bytes_change cf p now ls1.checker }
      | Event.timeout consumed now =>
        let ticks := ls.spare_ticks + 1
        if ticks = spareTicksThreshold then
          match tick_l0 ls.checker with
          | none => none
          | some c =>
            some { ls with checker := update_statistics consumed now c, spare_ticks := 0 }
        else
          some { ls with checker := update_statistics consumed now ls.checker,
                         spare_ticks := ticks }
      | _ => some ls

/-- Run the worker loop over a list of events; `none` once any iteration
panics. -/
def run (ls : LoopState) : List Event → Option LoopState
  | [] => some ls
  | e :: rest =>
    match step ls e with
    | none => none
    | some ls1 => run ls1 rest

/-- Initial loop state over a fresh checker (worker just spawned, enabled). -/
def initLoop (softLog2 hardLog2 : ℚ) (memtablesThreshold l0FilesThreshold : ℕ)
    (cfs : List ℕ) : LoopState where
  checker := FlowChecker.new softLog2 hardLog2 memtablesThreshold l0FilesThreshold cfs 0
  spare_ticks := 0
  enabled := true

/-- Concrete two-CF state used by the c6 theorems: CF 0 is the throttle CF
and CF 1 is past its L0 start-up gate. -/
def c6State : FlowChecker :=
  setCf { (initLoop 30 40 5 20 [0, 1]).checker with throttle_cf := some 0 } 1
    { CFFlowChecker.default 0 with on_start_l0_files := false }

/-- Concrete throttled state used by the c7 theorems: 150 MiB/s current
speed and a very large target flow. -/
def c7State : FlowChecker :=
  { (initLoop 30 40 5 20 [0]).checker with
    speed := Speed.fin 157286400,
    l0_target_flow := 10000000000 }

/-- Fold a sequence of (sample, time) observations into a smoother. -/
def Smoother.observeSeq (cap : ℕ) (inputs : List (ℚ × ℚ)) (s : Smoother) : Smoother :=
  inputs.foldl (fun s p => s.observe cap p.1 p.2) s

/-- The sum of the samples currently held in the window. -/
def Smoother.sampleSum (s : Smoother) : ℚ :=
  (s.records.map Prod.fst).sum

/-- Specification-side restatement of Smoother::trend, written from the
spec's description: partition the samples into a left half (index < len/2)
and a right half (len - index - 1 < len/2, i.e. the last len/2 samples) and
compare the two sums with tolerance 2; NoTrend for len at most 1. Compared
against the source port `Smoother.trend` in the theorems below. -/
def trend_by_halves (s : Smoother) : Trend :=
  let l := s.records.map Prod.fst
  let n := l.length
  let half := n / 2
  if n ≤ 1 then Trend.NoTrend
  else if (l.take half).sum + 2 < (l.drop (n - half)).sum then Trend.Increasing
  else if (l.drop (n - half)).sum + 2 < (l.take half).sum then Trend.Decreasing
  else Trend.NoTrend

/-- The speed-limit invariant claimed by the spec: the installed limiter
speed is +INFINITY or lies within [MIN_THROTTLE_SPEED, MAX_THROTTLE_SPEED]. -/
def speedInv : Speed → Prop
  | Speed.inf => True
  | Speed.fin v => minThrottleSpeed ≤ v ∧ v ≤ maxThrottleSpeed

instance speedInv.dec : ∀ sp : Speed, Decidable (speedInv sp)
  | Speed.inf => isTrue trivial
  | Speed.fin _ => inferInstanceAs (Decidable (_ ∧ _))

/-- A proposed throttle strictly above MAX_THROTTLE_SPEED (the f64 value
+INFINITY also compares above it). -/
def aboveMax : Speed → Prop
  | Speed.inf => True
  | Speed.fin v => maxThrottleSpeed < v

instance aboveMax.dec : ∀ sp : Speed, Decidable (aboveMax sp)
  | Speed.inf => isTrue trivial
  | Speed.fin _ => inferInstanceAs (Decidable (_ < _))

instance : IsTotal ℚ (fun a b : ℚ => a ≤ b) := ⟨le_total⟩

instance : IsTrans ℚ (fun a b : ℚ => a ≤ b) := ⟨fun _ _ _ => le_trans⟩

instance : IsAntisymm ℚ (fun a b : ℚ => a ≤ b) := ⟨fun _ _ => le_antisymm⟩

lemma remove_stale_records_length (now : ℚ) (l : List (ℚ × ℚ)) (t : ℚ) :
    (Smoother.remove_stale_records now l t).1.length ≤ l.length := by
  induction l generalizing t with
  | nil => simp [Smoother.remove_stale_records]
  | cons a rest ih =>
    rw [Smoother.remove_stale_records]
    split
    · exact le_trans (ih _) (by simp)
    · simp

lemma remove_stale_records_total (now : ℚ) (l : List (ℚ × ℚ)) (t : ℚ)
    (h : t = (l.map Prod.fst).sum) :
    (Smoother.remove_stale_records now l t).2 =
      (((Smoother.remove_stale_records now l t).1).map Prod.fst).sum := by
  induction l generalizing t with
  | nil => simpa [Smoother.remove_stale_records] using h
  | cons a rest ih =>
    rw [Smoother.remove_stale_records]
    split
    · exact ih _ (by simp at h; linarith)
    · simpa using h

lemma observe_inv (cap : ℕ) (hcap : 0 < cap) (s : Smoother) (x now : ℚ)
    (h : s.records.length ≤ cap ∧ s.total = s.sampleSum) :
    (s.observe cap x now).records.length ≤ cap ∧
      (s.observe cap x now).total = (s.observe cap x now).sampleSum := by
  obtain ⟨hlen, htot⟩ := h
  by_cases hc : s.records.length = cap
  · rcases hrec : s.records with _ | ⟨v, rest⟩
    · exfalso
      rw [hrec] at hc
      simp at hc
      omega
    · have hc2 : rest.length + 1 = cap := by
        rw [hrec] at hc
        simpa using hc
      have hobs : s.observe cap x now =
          { records := (Smoother.remove_stale_records now (rest ++ [(x, now)])
              (s.total - v.1 + x)).1,
            total := (Smoother.remove_stale_records now (rest ++ [(x, now)])
              (s.total - v.1 + x)).2 } := by
        rw [Smoother.observe, hrec, if_pos (show (v :: rest).length = cap from hrec ▸ hc)]
      rw [hobs]
      constructor
      · refine le_trans (remove_stale_records_length _ _ _) ?_
        simp
        omega
      · refine remove_stale_records_total _ _ _ ?_
        simp only [Smoother.sampleSum, hrec, List.map_cons, List.sum_cons] at htot
        simp [htot]
  · have hobs : s.observe cap x now =
        { records := (Smoother.remove_stale_records now (s.records ++ [(x, now)])
            (s.total + x)).1,
          total := (Smoother.remove_stale_records now (s.records ++ [(x, now)])
            (s.total + x)).2 } := by
      rw [Smoother.observe, if_neg hc]
    rw [hobs]
    constructor
    · refine le_trans (remove_stale_records_length _ _ _) ?_
      simp
      omega
    · refine remove_stale_records_total _ _ _ ?_
      simp only [Smoother.sampleSum] at htot
      simp [htot]

lemma observeSeq_inv (cap : ℕ) (hcap : 0 < cap) (inputs : List (ℚ × ℚ)) (s : Smoother)
    (h : s.records.length ≤ cap ∧ s.total = s.sampleSum) :
    (s.observeSeq cap inputs).records.length ≤ cap ∧
      (s.observeSeq cap inputs).total = (s.observeSeq cap inputs).sampleSum := by
  induction inputs generalizing s with
  | nil => simpa [Smoother.observeSeq] using h
  | cons p rest ih =>
    have h1 := observe_inv cap hcap s p.1 p.2 h
    simpa [Smoother.observeSeq] using ih (s.observe cap p.1 p.2) h1

/-- C8: for every sequence of observe calls on a Smoother with positive
capacity, the window holds at most CAP records, the running total equals
the sum of the samples currently in the window, and get_avg returns total
divided by the record count (hence the window sum divided by the count),
or 0 when the window is empty. -/
theorem c8_smoother_window_invariants (cap : ℕ) (inputs : List (ℚ × ℚ)) (hcap : 0 < cap) :
    (Smoother.observeSeq cap inputs Smoother.empty).records.length ≤ cap ∧
    (Smoother.observeSeq cap inputs Smoother.empty).total =
      (Smoother.observeSeq cap inputs Smoother.empty).sampleSum ∧
    (Smoother.observeSeq cap inputs Smoother.empty).get_avg =
      (if (Smoother.observeSeq cap inputs Smoother.empty).records = [] then 0
       else (Smoother.observeSeq cap inputs Smoother.empty).sampleSum /
         (Smoother.observeSeq cap inputs Smoother.empty).records.length) := by
  have h := observeSeq_inv cap hcap inputs Smoother.empty
    (by simp [Smoother.empty, Smoother.sampleSum])
  refine ⟨h.1, h.2, ?_⟩
  rw [Smoother.get_avg, h.2]

/-- Witness for c8_smoother_window_invariants at cap 2 and three samples. -/
theorem c8_smoother_window_invariants_witness :
    0 < 2 ∧
    ((Smoother.observeSeq 2 [(1, 0), (2, 1), (5, 2)] Smoother.empty).records.length ≤ 2 ∧
     (Smoother.observeSeq 2 [(1, 0), (2, 1), (5, 2)] Smoother.empty).total =
       (Smoother.observeSeq 2 [(1, 0), (2, 1), (5, 2)] Smoother.empty).sampleSum ∧
     (Smoother.observeSeq 2 [(1, 0), (2, 1), (5, 2)] Smoother.empty).get_avg =
       (if (Smoother.observeSeq 2 [(1, 0), (2, 1), (5, 2)] Smoother.empty).records = [] then 0
        else (Smoother.observeSeq 2 [(1, 0), (2, 1), (5, 2)] Smoother.empty).sampleSum /
          (Smoother.observeSeq 2 [(1, 0), (2, 1), (5, 2)] Smoother.empty).records.length)) :=
  ⟨by decide, c8_smoother_window_invariants 2 [(1, 0), (2, 1), (5, 2)] (by decide)⟩

lemma sumLR_eq (n half : ℕ) (hh : half = n / 2) (l : List ℚ) :
    ∀ i : ℕ, i + l.length = n →
      Smoother.sumLR n half l i = ((l.take (half - i)).sum, (l.drop (n - half - i)).sum) := by
  induction l with
  | nil => intro i hi; simp [Smoother.sumLR]
  | cons x rest ih =>
    intro i hi
    rw [Smoother.sumLR]
    by_cases h1 : i < half
    · rw [if_pos h1, ih (i + 1) (by simp at hi; omega)]
      have h2 : half - i = (half - (i + 1)) + 1 := by omega
      have h3 : n - half - i = (n - half - (i + 1)) + 1 := by
        simp at hi; omega
      simp [h2, h3]
    · rw [if_neg h1]
      by_cases h2 : n - i - 1 < half
      · rw [if_pos h2, ih (i + 1) (by simp at hi; omega)]
        have e1 : half - i = 0 := by omega
        have e2 : half - (i + 1) = 0 := by omega
        have e3 : n - half - i = 0 := by simp at hi; omega
        have e4 : n - half - (i + 1) = 0 := by simp at hi; omega
        simp [e1, e2, e3, e4]
      · rw [if_neg h2, ih (i + 1) (by simp at hi; omega)]
        have e1 : half - i = 0 := by omega
        have e2 : half - (i + 1) = 0 := by omega
        have e3 : n - half - i = (n - half - (i + 1)) + 1 := by simp at hi; omega
        simp [e1, e2, e3]

/-- C9: Smoother::trend computes exactly the spec's left/right-half
partition with tolerance 2 (NoTrend whenever the window holds at most one
sample), and on the two test windows it returns NoTrend and Increasing
respectively. -/
theorem c9_trend_partition :
    (∀ s : Smoother, s.trend = trend_by_halves s) ∧
    (Smoother.observeSeq 5 [(1, 0), (6, 1), (2, 2), (3, 3), (4, 4), (5, 5), (0, 6)]
      Smoother.empty).trend = Trend.NoTrend ∧
    (Smoother.observeSeq 5 [(1, 0), (6, 1), (2, 2), (3, 3), (4, 4), (5, 5), (9, 6)]
      Smoother.empty).trend = Trend.Increasing := by
  refine ⟨?_, by decide, by decide⟩
  intro s
  have e := sumLR_eq s.records.length (s.records.length / 2) rfl (s.records.map Prod.fst) 0
    (by simp)
  simp only [Nat.sub_zero] at e
  simp only [Smoother.trend, trend_by_halves, List.length_map, e]

/-- C10: get_percentile_90 returns the element at index
floor((len - 1) * 0.90) of any ascending sorting of the window samples
(zero for the empty window); on the window left by observing
[1,6,2,3,4,5,0] with capacity 5 (sorted samples [0,2,3,4,5]) it returns 4. -/
theorem c10_percentile_index :
    (∀ (s : Smoother) (l : List ℚ), l.Perm (s.records.map Prod.fst) →
        l.Sorted (fun a b : ℚ => a ≤ b) →
        s.get_percentile_90 =
          (if s.records = [] then 0
           else l.getD (Int.toNat ⌊((s.records.length : ℚ) - 1) * (9 / 10)⌋) 0)) ∧
    (Smoother.observeSeq 5 [(1, 0), (6, 1), (2, 2), (3, 3), (4, 4), (5, 5), (0, 6)]
      Smoother.empty).get_percentile_90 = 4 ∧
    Smoother.empty.get_percentile_90 = 0 := by
  refine ⟨?_, by decide, by decide⟩
  intro s l hp hs
  rw [Smoother.get_percentile_90]
  by_cases hemp : s.records = []
  · simp [hemp]
  · rw [if_neg hemp, if_neg hemp]
    have hl : l = List.insertionSort (fun a b : ℚ => a ≤ b) (s.records.map Prod.fst) := by
      refine List.eq_of_perm_of_sorted ?_ hs
        (List.sorted_insertionSort (fun a b : ℚ => a ≤ b) (s.records.map Prod.fst))
      exact hp.trans (List.perm_insertionSort (fun a b : ℚ => a ≤ b)
        (s.records.map Prod.fst)).symm
    rw [hl]

/-- Witness for c10_percentile_index on the capacity-5 test window, whose
sorted samples are [0,2,3,4,5]. -/
theorem c10_percentile_index_witness :
    List.Perm [0, 2, 3, 4, 5]
      ((Smoother.observeSeq 5 [(1, 0), (6, 1), (2, 2), (3, 3), (4, 4), (5, 5), (0, 6)]
        Smoother.empty).records.map Prod.fst) ∧
    List.Sorted (fun a b : ℚ => a ≤ b) [0, 2, 3, 4, 5] ∧
    (Smoother.observeSeq 5 [(1, 0), (6, 1), (2, 2), (3, 3), (4, 4), (5, 5), (0, 6)]
        Smoother.empty).get_percentile_90 =
      (if (Smoother.observeSeq 5 [(1, 0), (6, 1), (2, 2), (3, 3), (4, 4), (5, 5), (0, 6)]
          Smoother.empty).records = [] then 0
       else List.getD [0, 2, 3, 4, 5]
         (Int.toNat ⌊(((Smoother.observeSeq 5 [(1, 0), (6, 1), (2, 2), (3, 3), (4, 4), (5, 5), (0, 6)]
           Smoother.empty).records.length : ℚ) - 1) * (9 / 10)⌋) 0) :=
  ⟨by decide, by decide,
    c10_percentile_index.1 _ [0, 2, 3, 4, 5] (by decide) (by decide)⟩

lemma setCf_speed (s : FlowChecker) (cf : ℕ) (ck : CFFlowChecker) :
    (setCf s cf ck).speed = s.speed := rfl

lemma update_speed_limit_inv (t : Speed) (s : FlowChecker) :
    speedInv (update_speed_limit t s).speed := by
  cases t with
  | inf => trivial
  | fin v0 =>
    simp only [update_speed_limit]
    split_ifs with h1 h2 h2
    · trivial
    · exact ⟨le_refl _, by norm_num [minThrottleSpeed, maxThrottleSpeed]⟩
    · trivial
    · exact ⟨not_lt.mp h1, le_of_not_lt h2⟩

lemma update_speed_limit_above_max (v : ℚ) (s : FlowChecker) (h : maxThrottleSpeed < v) :
    update_speed_limit (Speed.fin v) s =
      { s with throttle_cf := none, num_l0_for_last_update_target_flow := none,
               speed := Speed.inf } := by
  have h1 : ¬ v < minThrottleSpeed := by
    rw [minThrottleSpeed]
    rw [maxThrottleSpeed] at h
    push_neg
    linarith
  simp only [update_speed_limit, if_neg h1, if_pos h]

lemma update_speed_limit_inf (s : FlowChecker) :
    update_speed_limit Speed.inf s =
      { s with throttle_cf := none, num_l0_for_last_update_target_flow := none,
               speed := Speed.inf } := rfl

lemma finish_throttle_inv (p : FlowChecker × Option Speed) (h : speedInv p.1.speed) :
    speedInv (finish_throttle p).speed := by
  rcases p with ⟨a, b⟩
  cases b with
  | none => exact h
  | some t => exact update_speed_limit_inv t a

lemma on_memtable_decrs_core_speed (cf nm : ℕ) (now : ℚ) (s : FlowChecker) :
    (on_memtable_decrs_core cf nm now s).1.speed = s.speed := by
  unfold on_memtable_decrs_core
  dsimp only
  split
  · rfl
  · rename_i s2 heq
    have hs2 : s2.speed = s.speed := by
      split at heq
      · split at heq
        · cases heq
          rfl
        · cases heq
      · cases heq
        rfl
    repeat' split
    all_goals simp only [setCf_speed]
    all_goals exact hs2

lemma on_memtable_decrs_inv (cf nm : ℕ) (now : ℚ) (s : FlowChecker)
    (h : speedInv s.speed) : speedInv (on_memtable_decrs cf nm now s).speed := by
  refine finish_throttle_inv _ ?_
  rw [on_memtable_decrs_core_speed]
  exact h

lemma on_l0_decr_observe_speed (cf b n : ℕ) (now : ℚ) (s : FlowChecker) :
    (on_l0_decr_observe cf b n now s).speed = s.speed := rfl

lemma l0_files_start_gate_speed (cf n : ℕ) (s1 s2 : FlowChecker)
    (h : l0_files_start_gate cf n s1 = some s2) : s2.speed = s1.speed := by
  unfold l0_files_start_gate at h
  dsimp only at h
  split at h
  · split at h
    · cases h
      rfl
    · cases h
  · cases h
    rfl

lemma on_l0_decr_arb_speed (cf n : ℕ) (s2 s3 : FlowChecker)
    (h : on_l0_decr_arb cf n s2 = some s3) : s3.speed = s2.speed := by
  unfold on_l0_decr_arb at h
  split at h
  · cases h
    rfl
  · split at h
    · cases h
      rfl
    · split at h
      · cases h
        rfl
      · cases h

lemma on_l0_decr_core_speed (cf : ℕ) (s3 : FlowChecker) :
    (on_l0_decr_core cf s3).1.speed = s3.speed := by
  unfold on_l0_decr_core
  dsimp only
  repeat' split
  all_goals rfl

lemma on_l0_decr_inv (cf b n : ℕ) (now : ℚ) (s : FlowChecker)
    (h : speedInv s.speed) : speedInv (on_l0_decr cf b n now s).speed := by
  unfold on_l0_decr
  dsimp only
  rcases hg : l0_files_start_gate cf n (on_l0_decr_observe cf b n now s) with _ | s2
  · exact h
  · dsimp only
    rcases ha : on_l0_decr_arb cf n s2 with _ | s3
    · dsimp only
      rw [l0_files_start_gate_speed _ _ _ _ hg, on_l0_decr_observe_speed]
      exact h
    · dsimp only
      refine finish_throttle_inv _ ?_
      rw [on_l0_decr_core_speed, on_l0_decr_arb_speed _ _ _ _ ha,
        l0_files_start_gate_speed _ _ _ _ hg, on_l0_decr_observe_speed]
      exact h

lemma increase_speed_limit_inv (cf : ℕ) (s : FlowChecker) :
    speedInv (increase_speed_limit cf s).speed := by
  unfold increase_speed_limit
  cases hs : s.speed with
  | inf => exact update_speed_limit_inv _ _
  | fin v => exact update_speed_limit_inv _ _

lemma decrease_speed_limit_inv (cf : ℕ) (s : FlowChecker) :
    speedInv (decrease_speed_limit cf s).speed := by
  unfold decrease_speed_limit
  cases hs : s.speed with
  | inf => exact update_speed_limit_inv _ _
  | fin v => exact update_speed_limit_inv _ _

lemma on_l0_incr_adjust_inv (cf : ℕ) (s3 : FlowChecker)
    (h : speedInv s3.speed) : speedInv (on_l0_incr_adjust cf s3).speed := by
  unfold on_l0_incr_adjust
  split
  · dsimp only
    split
    · exact decrease_speed_limit_inv _ _
    · split
      · exact increase_speed_limit_inv _ _
      · exact h
  · exact h

lemma on_l0_incr_flows_speed (cf : ℕ) (now : ℚ) (s1 : FlowChecker) :
    (on_l0_incr_flows cf now s1).speed = s1.speed := rfl

lemma on_l0_incr_tail_inv (cf num_l0 : ℕ) (s2 : FlowChecker) (h : speedInv s2.speed) :
    speedInv (match l0_files_start_gate cf num_l0 s2 with
      | none => s2
      | some s3 =>
        match s3.throttle_cf with
        | some tcf => if tcf = cf then on_l0_incr_adjust cf s3 else s3
        | none => on_l0_incr_adjust cf s3).speed := by
  rcases hg : l0_files_start_gate cf num_l0 s2 with _ | s3
  · exact h
  · dsimp only
    have hs3 : s3.speed = s2.speed := l0_files_start_gate_speed _ _ _ _ hg
    rcases hcf : s3.throttle_cf with _ | tcf
    · exact on_l0_incr_adjust_inv _ _ (by rw [hs3]; exact h)
    · dsimp only
      split
      · exact on_l0_incr_adjust_inv _ _ (by rw [hs3]; exact h)
      · rw [hs3]
        exact h

lemma on_l0_incr_inv (cf fb n : ℕ) (now : ℚ) (s : FlowChecker)
    (h : speedInv s.speed) : speedInv (on_l0_incr cf fb n now s).speed := by
  unfold on_l0_incr
  dsimp only
  split
  · exact on_l0_incr_tail_inv _ _ _ h
  · exact h

lemma tick_l0_inv (s c : FlowChecker) (h : tick_l0 s = some c)
    (hs : speedInv s.speed) : speedInv c.speed := by
  unfold tick_l0 at h
  split at h
  · cases h
    exact hs
  · rcases hcf : s.throttle_cf with _ | cf
    · rw [hcf] at h
      cases h
    · rw [hcf] at h
      dsimp only at h
      repeat' split at h
      all_goals cases h
      all_goals first
        | exact update_speed_limit_inv _ _
        | exact hs

lemma update_statistics_speed (consumed : ℕ) (now : ℚ) (s : FlowChecker) :
    (update_statistics consumed now s).speed = s.speed := by
  unfold update_statistics
  dsimp only
  split <;> rfl

lemma on_pending_speed (cf : ℕ) (p now : ℚ) (s : FlowChecker) :
    (on_pending_compaction_bytes_change cf p now s).speed = s.speed := by
  unfold on_pending_compaction_bytes_change
  dsimp only
  split
  · rfl
  · rename_i s2 heq
    have hs2 : s2.speed = s.speed := by
      split at heq
      · split at heq
        · cases heq
          rfl
        · cases heq
      · cases heq
        rfl
    split
    · exact hs2
    · rw [show (pending_store cf s2).speed = s2.speed from rfl]
      exact hs2


lemma resetSpare_checker (ls : LoopState) (cf : ℕ) :
    (resetSpare ls cf).checker = ls.checker := by
  unfold resetSpare
  split <;> rfl

lemma step_inv (ls ls1 : LoopState) (e : Event) (h : step ls e = some ls1)
    (hs : speedInv ls.checker.speed) : speedInv ls1.checker.speed := by
  cases e with
  | disable =>
    simp only [step] at h
    cases h
    trivial
  | enable =>
    simp only [step] at h
    cases h
    exact hs
  | l0 cf b n now =>
    simp only [step] at h
    split at h
    · cases h
      exact hs
    · cases h
      exact on_l0_decr_inv _ _ _ _ _ (by rw [resetSpare_checker]; exact hs)
  | l0Intra cf d n now =>
    simp only [step] at h
    split at h
    · cases h
      exact hs
    · split at h
      · cases h
        exact on_l0_decr_inv _ _ _ _ _ (by rw [resetSpare_checker]; exact hs)
      · cases h
        rw [resetSpare_checker]
        exact hs
  | flush cf fb nm nl now =>
    simp only [step] at h
    split at h
    · cases h
      exact hs
    · cases h
      exact on_l0_incr_inv _ _ _ _ _
        (on_memtable_decrs_inv _ _ _ _ (by rw [resetSpare_checker]; exact hs))
  | compaction cf p now =>
    simp only [step] at h
    split at h
    · cases h
      exact hs
    · cases h
      rw [on_pending_speed, resetSpare_checker]
      exact hs
  | timeout consumed now =>
    simp only [step] at h
    split at h
    · cases h
      exact hs
    · split at h
      · rcases ht : tick_l0 ls.checker with _ | c
        · rw [ht] at h
          cases h
        · rw [ht] at h
          cases h
          rw [update_statistics_speed]
          exact tick_l0_inv _ _ ht hs
      · cases h
        rw [update_statistics_speed]
        exact hs

lemma run_inv (events : List Event) (ls ls1 : LoopState)
    (h : run ls events = some ls1) (hs : speedInv ls.checker.speed) :
    speedInv ls1.checker.speed := by
  induction events generalizing ls with
  | nil =>
    rw [run] at h
    cases h
    exact hs
  | cons e rest ih =>
    rw [run] at h
    rcases he : step ls e with _ | ls2
    · rw [he] at h
      cases h
    · rw [he] at h
      exact ih ls2 h (step_inv _ _ _ he hs)

/-- C5: update_speed_limit always leaves the limiter at +INFINITY or at a
value in [MIN_THROTTLE_SPEED, MAX_THROTTLE_SPEED]; a proposed value
strictly above MAX_THROTTLE_SPEED (or +INFINITY) is installed as +INFINITY
and clears the throttle CF and the target-flow anchor; and the bound is an
invariant of every event sequence the worker loop processes from a fresh
checker. -/
theorem c5_speed_clamp :
    (∀ (t : Speed) (s : FlowChecker), speedInv (update_speed_limit t s).speed) ∧
    (∀ (v : ℚ) (s : FlowChecker), maxThrottleSpeed < v →
      (update_speed_limit (Speed.fin v) s).speed = Speed.inf ∧
      (update_speed_limit (Speed.fin v) s).throttle_cf = none ∧
      (update_speed_limit (Speed.fin v) s).num_l0_for_last_update_target_flow = none) ∧
    (∀ (softLog2 hardLog2 : ℚ) (mth l0th : ℕ) (cfs : List ℕ)
        (events : List Event) (ls : LoopState),
      run (initLoop softLog2 hardLog2 mth l0th cfs) events = some ls →
      speedInv ls.checker.speed) := by
  refine ⟨update_speed_limit_inv, ?_, ?_⟩
  · intro v s h
    rw [update_speed_limit_above_max v s h]
    exact ⟨rfl, rfl, rfl⟩
  · intro softLog2 hardLog2 mth l0th cfs events ls h
    exact run_inv events _ ls h trivial

/-- Witness for c5_speed_clamp: a proposed 400 MiB/s is installed as
+INFINITY and clears the throttle fields, and a concrete 3-event run obeys
the invariant. -/
theorem c5_speed_clamp_witness :
    maxThrottleSpeed < 419430400 ∧
    ((update_speed_limit (Speed.fin 419430400) (initLoop 30 40 5 20 [0]).checker).speed
        = Speed.inf ∧
      (update_speed_limit (Speed.fin 419430400) (initLoop 30 40 5 20 [0]).checker).throttle_cf
        = none ∧
      (update_speed_limit (Speed.fin 419430400)
          (initLoop 30 40 5 20 [0]).checker).num_l0_for_last_update_target_flow = none) ∧
    speedInv ((run (initLoop 30 40 5 20 [0])
        [Event.timeout 10485760 1, Event.flush 0 0 0 0 2, Event.compaction 0 29 3]).getD
      (initLoop 30 40 5 20 [0])).checker.speed :=
  ⟨by norm_num [maxThrottleSpeed],
   c5_speed_clamp.2.1 419430400 _ (by norm_num [maxThrottleSpeed]),
   c5_speed_clamp.2.2 30 40 5 20 [0]
     [Event.timeout 10485760 1, Event.flush 0 0 0 0 2, Event.compaction 0 29 3] _ (by decide)⟩

lemma f64_as_u32_le (q : ℚ) (hq : 0 ≤ q) : ((f64_as_u32 q : ℕ) : ℚ) ≤ q := by
  unfold f64_as_u32
  have h1 : min (Int.toNat ⌊q⌋) 4294967295 ≤ Int.toNat ⌊q⌋ := min_le_left _ _
  have h2 : ((Int.toNat ⌊q⌋ : ℕ) : ℚ) ≤ q := by
    have h3 : ((Int.toNat ⌊q⌋ : ℕ) : ℤ) = ⌊q⌋ := Int.toNat_of_nonneg (Int.floor_nonneg.mpr hq)
    have h4 : ((Int.toNat ⌊q⌋ : ℕ) : ℚ) = ((⌊q⌋ : ℤ) : ℚ) := by exact_mod_cast h3
    rw [h4]
    exact Int.floor_le q
  exact le_trans (by exact_mod_cast h1) h2

lemma pending_store_bounds (cf : ℕ) (s2 : FlowChecker)
    (hsh : s2.soft_log2 < s2.hard_log2) :
    ((getCf (pending_store cf s2) cf).long_term_pending_bytes.get_avg < s2.soft_log2 →
      (pending_store cf s2).discard_ratio = 0) ∧
    (((pending_store cf s2).discard_ratio : ℚ) ≤
      max (s2.discard_ratio : ℚ)
        (max (ratioScale / 100)
          (((getCf (pending_store cf s2) cf).long_term_pending_bytes.get_avg
              - s2.soft_log2) / (s2.hard_log2 - s2.soft_log2) * ratioScale))) := by
  have hg : getCf (pending_store cf s2) cf = getCf s2 cf := rfl
  rw [hg]
  have hd : (pending_store cf s2).discard_ratio =
      (if (getCf s2 cf).long_term_pending_bytes.get_avg < s2.soft_log2 then 0
       else
         f64_as_u32
           ((if s2.discard_ratio ≠ 0 then
               emaFactor * ((s2.discard_ratio : ℚ) / ratioScale) + (1 - emaFactor)
                 * (((getCf s2 cf).long_term_pending_bytes.get_avg - s2.soft_log2)
                     / (s2.hard_log2 - s2.soft_log2))
             else if 1 / 100 < ((getCf s2 cf).long_term_pending_bytes.get_avg - s2.soft_log2)
                 / (s2.hard_log2 - s2.soft_log2) then 1 / 100
             else ((getCf s2 cf).long_term_pending_bytes.get_avg - s2.soft_log2)
                 / (s2.hard_log2 - s2.soft_log2)) * ratioScale)) := rfl
  rw [hd]
  set pending := (getCf s2 cf).long_term_pending_bytes.get_avg with hpend
  constructor
  · intro hlt
    rw [if_pos hlt]
  · by_cases hps : pending < s2.soft_log2
    · rw [if_pos hps]
      push_cast
      refine le_trans ?_ (le_max_of_le_right (le_max_left _ _))
      norm_num [ratioScale]
    · rw [if_neg hps]
      have hraw : (0 : ℚ) ≤ (pending - s2.soft_log2) / (s2.hard_log2 - s2.soft_log2) := by
        apply div_nonneg
        · linarith [not_lt.mp hps]
        · linarith
      split_ifs with h1 h2
      · have hq : (emaFactor * ((s2.discard_ratio : ℚ) / ratioScale)
            + (1 - emaFactor) * ((pending - s2.soft_log2) / (s2.hard_log2 - s2.soft_log2)))
              * ratioScale
            = (6 / 10) * (s2.discard_ratio : ℚ)
              + (4 / 10) * ((pending - s2.soft_log2) / (s2.hard_log2 - s2.soft_log2)
                  * ratioScale) := by
          rw [emaFactor, ratioScale]
          ring
        have hrs : (0 : ℚ) ≤ (pending - s2.soft_log2) / (s2.hard_log2 - s2.soft_log2)
            * ratioScale := mul_nonneg hraw (by norm_num [ratioScale])
        refine le_trans (f64_as_u32_le _ ?_) ?_
        · rw [hq]
          have hold : (0 : ℚ) ≤ (s2.discard_ratio : ℚ) := Nat.cast_nonneg _
          linarith
        · rw [hq]
          rcases le_total ((s2.discard_ratio : ℚ))
              ((pending - s2.soft_log2) / (s2.hard_log2 - s2.soft_log2) * ratioScale) with hc | hc
          · refine le_trans ?_ (le_max_of_le_right (le_max_right _ _))
            linarith
          · refine le_trans ?_ (le_max_left _ _)
            linarith
      · refine le_trans (f64_as_u32_le _ (by norm_num [ratioScale])) ?_
        refine le_trans ?_ (le_max_of_le_right (le_max_left _ _))
        norm_num [ratioScale]
      · refine le_trans (f64_as_u32_le _
            (mul_nonneg hraw (by norm_num [ratioScale]))) ?_
        exact le_max_of_le_right (le_max_right _ _)


/-- C1 (amended): after on_pending_compaction_bytes_change runs, either the
stored discard ratio is unchanged (the start-up gate or the
fresher-larger-sample guard returned early), or the handled CF's long-term
average of log2(pending bytes) decides it: the ratio is 0 whenever that
average is below log2(soft_limit), and otherwise it is nonnegative and at
most the maximum of the previous ratio, 0.01 * RATIO_SCALE, and the
unclamped raw ratio (avg - soft) / (hard - soft) times RATIO_SCALE.  The
ratio is NOT always strictly positive at or above the soft limit (at
avg = soft with previous ratio 0 it is stored as 0) and it may exceed
RATIO_SCALE; see c1_counterexample and c2_discard_ratio_overflow_panics. -/
theorem c1_discard_ratio_bounds (s : FlowChecker) (cf : ℕ) (num now : ℚ)
    (hsh : s.soft_log2 < s.hard_log2) :
    (on_pending_compaction_bytes_change cf num now s).discard_ratio = s.discard_ratio ∨
    (((getCf (on_pending_compaction_bytes_change cf num now s) cf).long_term_pending_bytes.get_avg
        < s.soft_log2 →
      (on_pending_compaction_bytes_change cf num now s).discard_ratio = 0) ∧
     (((on_pending_compaction_bytes_change cf num now s).discard_ratio : ℚ) ≤
       max (s.discard_ratio : ℚ)
         (max (ratioScale / 100)
           (((getCf (on_pending_compaction_bytes_change cf num now s) cf).long_term_pending_bytes.get_avg
               - s.soft_log2) / (s.hard_log2 - s.soft_log2) * ratioScale)))) := by
  unfold on_pending_compaction_bytes_change
  dsimp only
  split
  · left
    rfl
  · rename_i s2 heq
    have hs2 : s2.soft_log2 = s.soft_log2 ∧ s2.hard_log2 = s.hard_log2 ∧
        s2.discard_ratio = s.discard_ratio := by
      split at heq
      · split at heq
        · cases heq
          exact ⟨rfl, rfl, rfl⟩
        · cases heq
      · cases heq
        exact ⟨rfl, rfl, rfl⟩
    split
    · left
      exact hs2.2.2
    · right
      have hb := pending_store_bounds cf s2 (by rw [hs2.1, hs2.2.1]; exact hsh)
      rw [hs2.1, hs2.2.1, hs2.2.2] at hb
      exact hb

/-- Witness for c1_discard_ratio_bounds on a concrete two-event state. -/
theorem c1_discard_ratio_bounds_witness :
    ((initLoop 30 40 5 20 [0]).checker.soft_log2 < (initLoop 30 40 5 20 [0]).checker.hard_log2) ∧
    ((on_pending_compaction_bytes_change 0 29 1
        (initLoop 30 40 5 20 [0]).checker).discard_ratio =
          (initLoop 30 40 5 20 [0]).checker.discard_ratio ∨
      (((getCf (on_pending_compaction_bytes_change 0 29 1 (initLoop 30 40 5 20 [0]).checker)
            0).long_term_pending_bytes.get_avg <
          (initLoop 30 40 5 20 [0]).checker.soft_log2 →
        (on_pending_compaction_bytes_change 0 29 1
          (initLoop 30 40 5 20 [0]).checker).discard_ratio = 0) ∧
       (((on_pending_compaction_bytes_change 0 29 1
            (initLoop 30 40 5 20 [0]).checker).discard_ratio : ℚ) ≤
         max ((initLoop 30 40 5 20 [0]).checker.discard_ratio : ℚ)
           (max (ratioScale / 100)
             (((getCf (on_pending_compaction_bytes_change 0 29 1
                   (initLoop 30 40 5 20 [0]).checker) 0).long_term_pending_bytes.get_avg
                 - (initLoop 30 40 5 20 [0]).checker.soft_log2) /
               ((initLoop 30 40 5 20 [0]).checker.hard_log2
                 - (initLoop 30 40 5 20 [0]).checker.soft_log2) * ratioScale))))) :=
  ⟨by decide, c1_discard_ratio_bounds (initLoop 30 40 5 20 [0]).checker 0 29 1 (by decide)⟩

/-- C1 counterexample: two Compaction events (pending log2 = 29 then 31,
soft = 30, hard = 40) leave the long-term average exactly at the soft
limit, which is not below it, while the stored discard ratio is 0 - the
claim's "strictly positive otherwise" fails. -/
theorem c1_counterexample :
    (run (initLoop 30 40 5 20 [0])
        [Event.compaction 0 29 1, Event.compaction 0 31 2]).map
      (fun ls => (ls.checker.discard_ratio,
        decide ((getCf ls.checker 0).long_term_pending_bytes.get_avg
          < ls.checker.soft_log2))) = some (0, false) := by
  decide


/-- C2 (code bug): four Compaction events drive the stored discard ratio to
13655999 > RATIO_SCALE (the EMA update is unclamped), and should_drop at
that value panics: rand's gen_ratio requires numerator <= denominator and
its Bernoulli unwrap fails otherwise (modelled as none).  At ratio 0
should_drop always returns false, as the claim states. -/
theorem c2_discard_ratio_overflow_panics :
    ((run (initLoop 30 40 5 20 [0])
        [Event.compaction 0 29 1, Event.compaction 0 60 2,
         Event.compaction 0 60 3, Event.compaction 0 60 4]).map
      (fun ls => ls.checker.discard_ratio)) = some 13655999 ∧
    ratioScaleNat < 13655999 ∧
    should_drop 13655999 0 = none ∧
    (∀ draw : ℕ, should_drop 0 draw = some false) := by
  refine ⟨by decide, by decide, by decide, ?_⟩
  intro draw
  unfold should_drop gen_ratio
  rw [if_neg (by norm_num [ratioScaleNat])]
  simp

/-- C3 (code bug): a memtable-driven throttle leaves the limiter at a
finite speed with throttle_cf = None (on_memtable_decrs never sets the
throttle CF), and after ten consecutive idle timeouts tick_l0 unwraps
throttle_cf and the worker panics (run = none). -/
theorem c3_tick_l0_panics :
    ((run (initLoop 30 40 5 20 [0])
        [Event.timeout 10485760 1, Event.flush 0 0 0 0 2, Event.flush 0 0 10 0 3,
         Event.flush 0 0 10 0 4]).map
      (fun ls => (decide (ls.checker.speed = Speed.inf), ls.checker.throttle_cf,
        ls.enabled))) = some (false, none, true) ∧
    run (initLoop 30 40 5 20 [0])
      [Event.timeout 10485760 1, Event.flush 0 0 0 0 2, Event.flush 0 0 10 0 3,
       Event.flush 0 0 10 0 4, Event.timeout 0 5, Event.timeout 0 6, Event.timeout 0 7,
       Event.timeout 0 8, Event.timeout 0 9, Event.timeout 0 10, Event.timeout 0 11,
       Event.timeout 0 12, Event.timeout 0 13] = none :=
  ⟨by decide, by decide⟩

/-- C4 counterexample: from a throttled state, Disable does set the limiter
to +INFINITY and the discard ratio to 0 within one iteration, but the
foreground write-flow smoother is NOT cleared (reset_statistics only
touches metrics gauges, the limiter speed and the discard atomic), so the
claim's third conjunct fails. -/
theorem c4_counterexample :
    ((run (initLoop 30 40 5 20 [0])
        [Event.timeout 10485760 1, Event.flush 0 0 0 0 2, Event.flush 0 0 10 0 3,
         Event.flush 0 0 10 0 4]).map
      (fun ls => decide (ls.checker.speed = Speed.inf))) = some false ∧
    ((run (initLoop 30 40 5 20 [0])
        [Event.timeout 10485760 1, Event.flush 0 0 0 0 2, Event.flush 0 0 10 0 3,
         Event.flush 0 0 10 0 4, Event.disable]).map
      (fun ls => (decide (ls.checker.speed = Speed.inf), ls.checker.discard_ratio,
        decide (ls.checker.write_flow_recorder.records = [])))) =
      some (true, 0, false) :=
  ⟨by decide, by decide⟩

/-- C4 (amended): processing a Disable command resets within that very
iteration: the worker is disabled, the limiter speed becomes +INFINITY
(is_unlimited) and the discard ratio 0; the foreground write-flow smoother
is left unchanged, not cleared. -/
theorem c4_disable_resets (ls : LoopState) :
    ∃ ls1, step ls Event.disable = some ls1 ∧ ls1.enabled = false ∧
      ls1.checker.speed = Speed.inf ∧ ls1.checker.discard_ratio = 0 ∧
      ls1.checker.write_flow_recorder = ls.checker.write_flow_recorder :=
  ⟨_, rfl, rfl, rfl, rfl, rfl⟩


lemma lookup_set_ne (l : List (ℕ × CFFlowChecker)) (cf a : ℕ) (ck : CFFlowChecker)
    (h : a ≠ cf) :
    (l.map (fun p => if p.1 = cf then (cf, ck) else p)).lookup a = l.lookup a := by
  induction l with
  | nil => rfl
  | cons p rest ih =>
    simp only [List.map_cons]
    by_cases hp : p.1 = cf
    · rw [if_pos hp]
      have h1 : (a == cf) = false := beq_eq_false_iff_ne.mpr h
      have h2 : (a == p.1) = false := by
        rw [hp]
        exact h1
      simp [List.lookup, h1, h2, ih]
    · rw [if_neg hp]
      by_cases hpa : a = p.1
      · have h1 : (a == p.1) = true := beq_iff_eq.mpr hpa
        simp [List.lookup, h1]
      · have h1 : (a == p.1) = false := beq_eq_false_iff_ne.mpr hpa
        simp [List.lookup, h1, ih]

lemma lookup_set_self (l : List (ℕ × CFFlowChecker)) (cf : ℕ) (ck : CFFlowChecker) :
    (l.map (fun p => if p.1 = cf then (cf, ck) else p)).lookup cf =
      (l.lookup cf).map (fun _ => ck) := by
  induction l with
  | nil => rfl
  | cons p rest ih =>
    simp only [List.map_cons]
    by_cases hp : p.1 = cf
    · rw [if_pos hp]
      have h1 : (cf == cf) = true := beq_self_eq_true cf
      have h2 : (cf == p.1) = true := by
        rw [hp]
        exact h1
      simp [List.lookup, h1, h2]
    · rw [if_neg hp]
      have h1 : (cf == p.1) = false := beq_eq_false_iff_ne.mpr (fun he => hp he.symm)
      simp [List.lookup, h1, ih]

lemma getCf_setCf_ne (s : FlowChecker) (cf a : ℕ) (ck : CFFlowChecker) (h : a ≠ cf) :
    getCf (setCf s cf ck) a = getCf s a := by
  unfold getCf setCf
  dsimp only
  rw [lookup_set_ne _ _ _ _ h]

lemma getCf_present (s : FlowChecker) (cf : ℕ)
    (h : (getCf s cf).on_start_l0_files = false) :
    s.cf_checkers.lookup cf = some (getCf s cf) := by
  unfold getCf at h ⊢
  rcases hl : s.cf_checkers.lookup cf with _ | ck0
  · rw [hl] at h
    exact absurd h (by simp [CFFlowChecker.default])
  · rfl

lemma getCf_setCf_present (s : FlowChecker) (cf : ℕ) (ck ck0 : CFFlowChecker)
    (h : s.cf_checkers.lookup cf = some ck0) :
    getCf (setCf s cf ck) cf = ck := by
  unfold getCf setCf
  dsimp only
  rw [lookup_set_self, h]
  rfl


/-- C6: when a CF past its start-up gate is handled by on_l0_decr while a
different CF A is the throttle CF, the arbitration takes over if and only
if the handled CF's L0 file count strictly exceeds the maximum of A's
long-term L0 smoother plus 4; without takeover the handler returns with
the throttle CF, target flow and speed limit unchanged, and on takeover
the arbitration installs the handled CF with the target flow seeded from
its short-term L0 production average and the anchor set to its L0 count. -/
theorem c6_throttle_cf_arbitration (s : FlowChecker) (cf A l0_bytes num_l0 : ℕ) (now : ℚ)
    (hGate : (getCf s cf).on_start_l0_files = false)
    (hA : s.throttle_cf = some A) (hne : A ≠ cf) :
    (¬ ((getCf s A).long_term_num_l0_files.get_max + 4 < (num_l0 : ℚ)) →
      (on_l0_decr cf l0_bytes num_l0 now s).throttle_cf = s.throttle_cf ∧
      (on_l0_decr cf l0_bytes num_l0 now s).l0_target_flow = s.l0_target_flow ∧
      (on_l0_decr cf l0_bytes num_l0 now s).speed = s.speed) ∧
    ((getCf s A).long_term_num_l0_files.get_max + 4 < (num_l0 : ℚ) →
      on_l0_decr_arb cf num_l0 (on_l0_decr_observe cf l0_bytes num_l0 now s) =
        some { on_l0_decr_observe cf l0_bytes num_l0 now s with
          throttle_cf := some cf,
          num_l0_for_last_update_target_flow := some num_l0,
          l0_target_flow := (getCf s cf).short_term_l0_production_flow.get_avg }) ∧
    ((∃ s3, on_l0_decr_arb cf num_l0 (on_l0_decr_observe cf l0_bytes num_l0 now s) = some s3 ∧
        s3.throttle_cf = some cf) ↔
      (getCf s A).long_term_num_l0_files.get_max + 4 < (num_l0 : ℚ)) := by
  have hck0 := getCf_present s cf hGate
  set s1 := on_l0_decr_observe cf l0_bytes num_l0 now s with hs1
  have hg1 : getCf s1 cf =
      { getCf s cf with
        last_l0_bytes := (getCf s cf).last_l0_bytes + l0_bytes,
        long_term_num_l0_files := (getCf s cf).long_term_num_l0_files.observe 20 (num_l0 : ℚ) now,
        last_num_l0_files := num_l0 } := by
    rw [hs1]
    unfold on_l0_decr_observe
    exact getCf_setCf_present _ _ _ _ hck0
  have hgA : getCf s1 A = getCf s A := by
    rw [hs1]
    unfold on_l0_decr_observe
    exact getCf_setCf_ne _ _ _ _ hne
  have hshort : (getCf s1 cf).short_term_l0_production_flow =
      (getCf s cf).short_term_l0_production_flow := by
    rw [hg1]
  have hgate : l0_files_start_gate cf num_l0 s1 = some s1 := by
    unfold l0_files_start_gate
    dsimp only
    rw [hg1]
    simp [hGate]
  have harbEq : on_l0_decr_arb cf num_l0 s1 =
      (if (getCf s A).long_term_num_l0_files.get_max + 4 < (num_l0 : ℚ) then
        some { s1 with
          throttle_cf := some cf,
          num_l0_for_last_update_target_flow := some num_l0,
          l0_target_flow := (getCf s cf).short_term_l0_production_flow.get_avg }
      else none) := by
    unfold on_l0_decr_arb
    rw [show s1.throttle_cf = s.throttle_cf from rfl, hA]
    dsimp only
    rw [if_neg hne, hgA, hshort]
  refine ⟨?_, ?_, ?_⟩
  · intro hcond
    have hdecr : on_l0_decr cf l0_bytes num_l0 now s = s1 := by
      unfold on_l0_decr
      dsimp only
      rw [← hs1, hgate]
      dsimp only
      rw [harbEq, if_neg hcond]
    rw [hdecr]
    exact ⟨rfl, rfl, rfl⟩
  · intro hcond
    rw [harbEq, if_pos hcond]
  · constructor
    · rintro ⟨s3, hs3, hcf3⟩
      by_contra hcond
      rw [harbEq, if_neg hcond] at hs3
      cases hs3
    · intro hcond
      refine ⟨{ s1 with
        throttle_cf := some cf,
        num_l0_for_last_update_target_flow := some num_l0,
        l0_target_flow := (getCf s cf).short_term_l0_production_flow.get_avg }, ?_, rfl⟩
      rw [harbEq, if_pos hcond]


/-- Witness for c6_throttle_cf_arbitration: CF 0 throttles, CF 1 (past its
gate) reports 7 L0 files against an empty long-term smoother of CF 0. -/
theorem c6_throttle_cf_arbitration_witness :
    (getCf c6State 1).on_start_l0_files = false ∧
    c6State.throttle_cf = some 0 ∧
    (0 : ℕ) ≠ 1 ∧
    ((¬ ((getCf c6State 0).long_term_num_l0_files.get_max + 4 < ((7 : ℕ) : ℚ)) →
       (on_l0_decr 1 5 7 3 c6State).throttle_cf = c6State.throttle_cf ∧
       (on_l0_decr 1 5 7 3 c6State).l0_target_flow = c6State.l0_target_flow ∧
       (on_l0_decr 1 5 7 3 c6State).speed = c6State.speed) ∧
     ((getCf c6State 0).long_term_num_l0_files.get_max + 4 < ((7 : ℕ) : ℚ) →
       on_l0_decr_arb 1 7 (on_l0_decr_observe 1 5 7 3 c6State) =
         some { on_l0_decr_observe 1 5 7 3 c6State with
           throttle_cf := some 1,
           num_l0_for_last_update_target_flow := some 7,
           l0_target_flow := (getCf c6State 1).short_term_l0_production_flow.get_avg }) ∧
     ((∃ s3, on_l0_decr_arb 1 7 (on_l0_decr_observe 1 5 7 3 c6State) = some s3 ∧
         s3.throttle_cf = some 1) ↔
       (getCf c6State 0).long_term_num_l0_files.get_max + 4 < ((7 : ℕ) : ℚ))) :=
  ⟨by decide, by decide, by decide,
    c6_throttle_cf_arbitration c6State 1 0 5 7 3 (by decide) (by decide) (by decide)⟩

/-- C7 (amended): with a finite nonnegative current speed v, the PID
correction of increase_speed_limit is clamped to [0, v] before being
added, so the proposed speed lies in [v, 2v]; the proposed speed is then
passed through update_speed_limit (so a proposal above 200 MiB/s releases
to +INFINITY rather than being installed), and in all cases the resulting
speed is at least the current speed - hence each on_l0_incr adjustment
through this path is nonnegative. -/
theorem c7_pid_clamp (s : FlowChecker) (cf : ℕ) (v : ℚ)
    (hv : s.speed = Speed.fin v) (hv0 : 0 ≤ v) :
    v ≤ increase_proposed cf s v ∧
    increase_proposed cf s v ≤ 2 * v ∧
    increase_speed_limit cf s = update_speed_limit (Speed.fin (increase_proposed cf s v)) s ∧
    Speed.le (Speed.fin v) (increase_speed_limit cf s).speed := by
  have hb : v ≤ increase_proposed cf s v ∧ increase_proposed cf s v ≤ 2 * v := by
    unfold increase_proposed
    dsimp only
    split_ifs with h1 h2
    · constructor <;> linarith
    · constructor <;> linarith
    · constructor <;> linarith [not_lt.mp h2]
  have heq : increase_speed_limit cf s =
      update_speed_limit (Speed.fin (increase_proposed cf s v)) s := by
    unfold increase_speed_limit
    rw [hv]
  refine ⟨hb.1, hb.2, heq, ?_⟩
  rw [heq]
  unfold update_speed_limit
  dsimp only
  split_ifs with h1 h2 h2
  · trivial
  · show v ≤ minThrottleSpeed
    linarith [hb.1]
  · trivial
  · show v ≤ increase_proposed cf s v
    exact hb.1

/-- C7 counterexample: at current speed 150 MiB/s with a huge target flow,
the clamped correction u = v doubles the proposal to 300 MiB/s, which
update_speed_limit maps to +INFINITY - so the resulting speed is NOT at
most twice the current speed, refuting the claim as stated. -/
theorem c7_counterexample :
    c7State.speed = Speed.fin 157286400 ∧
    (increase_speed_limit 0 c7State).speed = Speed.inf ∧
    Speed.leQB (increase_speed_limit 0 c7State).speed (2 * 157286400) = false :=
  ⟨by decide, by decide, by decide⟩

/-- Witness for c7_pid_clamp at the concrete 150 MiB/s state. -/
theorem c7_pid_clamp_witness :
    c7State.speed = Speed.fin 157286400 ∧
    (0 : ℚ) ≤ 157286400 ∧
    (157286400 ≤ increase_proposed 0 c7State 157286400 ∧
     increase_proposed 0 c7State 157286400 ≤ 2 * 157286400 ∧
     increase_speed_limit 0 c7State =
       update_speed_limit (Speed.fin (increase_proposed 0 c7State 157286400)) c7State ∧
     Speed.le (Speed.fin 157286400) (increase_speed_limit 0 c7State).speed) :=
  ⟨by decide, by decide,
    c7_pid_clamp c7State 0 157286400 (by decide) (by decide)⟩

end FlowCtl
